import Mathlib

/-!
Verification of the port-discovery component (`src/sidecar/port_discovery.py`)
of the sidecar service.

The Python class `PortDiscovery` is embedded shallowly:

* machine/OS effects (socket bind, connection-table enumeration, process
  lookup) are passed in as explicit oracles, so every operation is a pure
  Lean function of the allocator state, its arguments and the oracles;
* Python exceptions are represented with `Except` where the source lets
  them escape, and collapsed to ordinary return values where the source
  catches them;
* `random.shuffle` is represented by an explicit `shuffle` function; the
  theorems quantify over every `shuffle` whose output is a permutation of
  its input, which is exactly what a shuffle produces.
-/

/-- The allocator state: `__init__` stores exactly `start_port` and
`end_port` on `self` and nothing else. -/
structure PortDiscovery where
  start_port : Int
  end_port : Int
deriving DecidableEq, Repr

namespace PortDiscovery

/-- `PortDiscovery.__init__(self, start_port=8000, end_port=9000)`:
the source performs no validation whatsoever — it assigns the two
attributes and returns.  There is no `InvalidRange` (or any other)
exception anywhere in the constructor. -/
def init (start_port : Int := 8000) (end_port : Int := 9000) : PortDiscovery :=
  { start_port := start_port, end_port := end_port }

/-- Outcome of the OS-level `sock.bind((host, port))` call (together with
the socket creation and `setsockopt` that precede it inside the same
`try`).  CPython raises exceptions of the `OSError` class (which includes
`socket.error`, an alias of `OSError` in Python 3) for bind failures such
as address-in-use or permission-denied, but raises exceptions *outside*
that class for others — notably `OverflowError` when the port value is
outside `0..65535`. -/
inductive BindOutcome where
  | ok
  | osError (msg : String)
  | otherExc (msg : String)
deriving DecidableEq, Repr

/-- `is_port_available(self, port, host="127.0.0.1")`: try to bind and
release; return `True` on success.  The `except (socket.error, OSError)`
clause converts exactly the `OSError`-class failures to `False` (after a
debug log); an exception of any other class is not caught and propagates
to the caller, modelled as `Except.error`.  The transient socket
creation/close is absorbed into the `bind` oracle. -/
def is_port_available (bind : Int → String → BindOutcome) (pd : PortDiscovery)
    (port : Int) (host : String := "127.0.0.1") : Except String Bool :=
  match bind port host with
  | .ok => .ok true
  | .osError _ => .ok false
  | .otherExc m => .error m

/-- Python truthiness of the `Optional[int]` argument `preferred_port`:
`None` and `0` are falsy, every other integer is truthy. -/
def pyTruthy : Option Int → Bool
  | none => false
  | some p => p != 0

/-- `list(range(self.start_port, self.end_port + 1))`: the inclusive
candidate list built by `find_available_port` (empty when the range is
inverted, exactly as Python's `range`). -/
def portRange (pd : PortDiscovery) : List Int :=
  (List.range (pd.end_port + 1 - pd.start_port).toNat).map
    (fun i : Nat => pd.start_port + (i : Int))

/-- The `for port in ports:` loop of `find_available_port`: return the
first port the availability probe accepts, `none` after exhaustion. -/
def scanPorts (avail : Int → Bool) : List Int → Option Int
  | [] => none
  | p :: ps => if avail p then some p else scanPorts avail ps

/-- The ports probed by `scanPorts`, in order: every visited port up to
and including the first available one. -/
def scanProbes (avail : Int → Bool) : List Int → List Int
  | [] => []
  | p :: ps => if avail p then [p] else p :: scanProbes avail ps

/-- `find_available_port(self, preferred_port=None)`:

1. `if preferred_port and self.is_port_available(preferred_port): return
   preferred_port` — the truthy (non-`None`, non-zero) preferred port is
   probed first and returned immediately when available, with **no**
   range check;
2. otherwise the inclusive range list is shuffled (`random.shuffle`,
   modelled by the `shuffle` parameter) and scanned, returning the first
   available port or `None`.

`avail` is the boolean behaviour of `is_port_available` under a bind
oracle that raises nothing outside the `OSError` class. -/
def find_available_port (avail : Int → Bool) (shuffle : List Int → List Int)
    (pd : PortDiscovery) (preferred_port : Option Int := none) : Option Int :=
  match preferred_port with
  | some p =>
      if p ≠ 0 ∧ avail p = true then some p
      else scanPorts avail (shuffle pd.portRange)
  | none => scanPorts avail (shuffle pd.portRange)

/-- The exact sequence of ports `find_available_port` passes to
`is_port_available`, in call order: the truthy preferred port first (the
`and` short-circuits, so a falsy `preferred_port` is never probed), then
the shuffled range scan, which stops at the first success. -/
def find_available_port_probes (avail : Int → Bool)
    (shuffle : List Int → List Int) (pd : PortDiscovery)
    (preferred_port : Option Int := none) : List Int :=
  match preferred_port with
  | some p =>
      if p ≠ 0 then
        if avail p = true then [p]
        else p :: scanProbes avail (shuffle pd.portRange)
      else scanProbes avail (shuffle pd.portRange)
  | none => scanProbes avail (shuffle pd.portRange)

/-- The local address of a connection-table entry (`conn.laddr`), of which
the source reads only `.port`. -/
structure Laddr where
  port : Int
deriving DecidableEq, Repr

/-- One entry of `psutil.net_connections()`: the source reads
`conn.laddr.port` and `conn.pid` (which psutil may report as `None`). -/
structure Conn where
  laddr : Laddr
  pid : Option Int
deriving DecidableEq, Repr

/-- The process attributes read after a successful
`psutil.Process(conn.pid)` lookup: `name()`, `cmdline()`, `status()`. -/
structure ProcInfo where
  name : String
  cmdline : List String
  status : String
deriving DecidableEq, Repr

/-- Outcome of resolving a PID via `psutil.Process` and reading its
attributes: success, or one of the two exception classes the source
catches (`psutil.NoSuchProcess`, which includes `ZombieProcess`, and
`psutil.AccessDenied`). -/
inductive ProcLookup where
  | found (info : ProcInfo)
  | noSuchProcess
  | accessDenied
deriving DecidableEq, Repr

/-- The dict returned by `get_process_using_port`:
`{"pid": ..., "name": ..., "cmdline": ..., "status": ...}`. -/
structure ProcessRecord where
  pid : Option Int
  name : String
  cmdline : List String
  status : String
deriving DecidableEq, Repr

/-- The `for conn in psutil.net_connections():` loop body of
`get_process_using_port`: the first entry whose `laddr.port` equals the
queried port is resolved and returned — both branches of the inner
`try/except` return, so no later entry is ever examined.  On
`NoSuchProcess`/`AccessDenied` the source returns the sentinel record
`{"pid": conn.pid, "name": "Unknown", "cmdline": [], "status": "Unknown"}`. -/
def lookupLoop (proc : Option Int → ProcLookup) (port : Int) :
    List Conn → Option ProcessRecord
  | [] => none
  | c :: rest =>
      if c.laddr.port = port then
        match proc c.pid with
        | .found info => some ⟨c.pid, info.name, info.cmdline, info.status⟩
        | .noSuchProcess => some ⟨c.pid, "Unknown", [], "Unknown"⟩
        | .accessDenied => some ⟨c.pid, "Unknown", [], "Unknown"⟩
      else lookupLoop proc port rest

/-- `get_process_using_port(self, port)`: enumerate the connection table
and resolve the first matching entry; fall through to `return None` when
no entry matches.  The whole body sits in a `try/except Exception` that
logs and falls through to `return None` — modelled by the `.error` case
of the enumeration oracle. -/
def get_process_using_port (pd : PortDiscovery)
    (net_connections : Except String (List Conn))
    (proc : Option Int → ProcLookup) (port : Int) : Option ProcessRecord :=
  match net_connections with
  | .ok conns => lookupLoop proc port conns
  | .error _ => none

/-- `find_ports_in_use(self)`: collect `conn.laddr.port` for every
connection-table entry with `start_port <= conn.laddr.port <= end_port`
(the `except Exception` leaves the accumulator empty when enumeration
fails), then `sorted(list(set(ports_in_use)))` — deduplicate and sort
ascending. -/
def find_ports_in_use (pd : PortDiscovery)
    (net_connections : Except String (List Conn)) : List Int :=
  let ports_in_use : List Int :=
    match net_connections with
    | .ok conns =>
        (conns.filter (fun c =>
          decide (pd.start_port ≤ c.laddr.port ∧ c.laddr.port ≤ pd.end_port))).map
          (fun c => c.laddr.port)
    | .error _ => []
  List.insertionSort (· ≤ ·) ports_in_use.dedup

/-- State-threading form of `is_port_available`: the method body never
assigns to `self`, so the receiver it hands back is the one it was
called on. -/
def is_port_available_st (bind : Int → String → BindOutcome)
    (pd : PortDiscovery) (port : Int) (host : String) :
    Except String Bool × PortDiscovery :=
  (is_port_available bind pd port host, pd)

/-- State-threading form of `find_available_port`: the method body reads
`self.start_port` and `self.end_port` but never assigns to `self`. -/
def find_available_port_st (avail : Int → Bool)
    (shuffle : List Int → List Int) (pd : PortDiscovery)
    (preferred_port : Option Int) : Option Int × PortDiscovery :=
  (find_available_port avail shuffle pd preferred_port, pd)

/-- State-threading form of `get_process_using_port`: the method body
never assigns to `self`. -/
def get_process_using_port_st (pd : PortDiscovery)
    (net_connections : Except String (List Conn))
    (proc : Option Int → ProcLookup) (port : Int) :
    Option ProcessRecord × PortDiscovery :=
  (get_process_using_port pd net_connections proc port, pd)

/-- State-threading form of `find_ports_in_use`: the method body never
assigns to `self`. -/
def find_ports_in_use_st (pd : PortDiscovery)
    (net_connections : Except String (List Conn)) :
    List Int × PortDiscovery :=
  (find_ports_in_use pd net_connections, pd)

end PortDiscovery

section ScanLemmas

open PortDiscovery

theorem scanPorts_eq_some {avail : Int → Bool} {l : List Int} {p : Int}
    (h : scanPorts avail l = some p) : avail p = true ∧ p ∈ l := by
  induction l with
  | nil => simp [scanPorts] at h
  | cons q qs ih =>
      by_cases hq : avail q = true
      · simp [scanPorts, hq] at h
        subst h
        exact ⟨hq, List.mem_cons_self q qs⟩
      · simp [scanPorts, hq] at h
        rcases ih h with ⟨h1, h2⟩
        exact ⟨h1, List.mem_cons_of_mem q h2⟩

theorem scanPorts_isSome {avail : Int → Bool} {l : List Int}
    (h : ∃ q ∈ l, avail q = true) : ∃ p, scanPorts avail l = some p := by
  induction l with
  | nil => simp at h
  | cons q qs ih =>
      by_cases hq : avail q = true
      · exact ⟨q, by simp [scanPorts, hq]⟩
      · rcases h with ⟨r, hr, hra⟩
        rcases List.mem_cons.mp hr with rfl | hr'
        · exact absurd hra hq
        · rcases ih ⟨r, hr', hra⟩ with ⟨p, hp⟩
          exact ⟨p, by simp [scanPorts, hq, hp]⟩

theorem scanPorts_all_false {avail : Int → Bool} (l : List Int)
    (h : ∀ q, avail q = false) : scanPorts avail l = none := by
  induction l with
  | nil => rfl
  | cons q qs ih => simp [scanPorts, h q, ih]

theorem scanProbes_all_false {avail : Int → Bool} (l : List Int)
    (h : ∀ q, avail q = false) : scanProbes avail l = l := by
  induction l with
  | nil => rfl
  | cons q qs ih => simp [scanProbes, h q, ih]

theorem mem_portRange {pd : PortDiscovery} {q : Int} :
    q ∈ pd.portRange ↔ pd.start_port ≤ q ∧ q ≤ pd.end_port := by
  simp only [PortDiscovery.portRange, List.mem_map, List.mem_range]
  constructor
  · rintro ⟨i, hi, rfl⟩
    omega
  · rintro ⟨h1, h2⟩
    exact ⟨(q - pd.start_port).toNat, by omega, by omega⟩

theorem nodup_portRange (pd : PortDiscovery) : pd.portRange.Nodup := by
  refine List.Nodup.map ?_ (List.nodup_range _)
  intro a b hab
  have : pd.start_port + (a : Int) = pd.start_port + (b : Int) := hab
  omega

theorem length_portRange (pd : PortDiscovery)
    (h : pd.start_port ≤ pd.end_port) :
    (pd.portRange.length : Int) = pd.end_port - pd.start_port + 1 := by
  simp only [PortDiscovery.portRange, List.length_map, List.length_range]
  omega

end ScanLemmas

open PortDiscovery

/-- C2: whenever `preferred_port` is supplied, non-zero and reported
available, `find_available_port` returns exactly `preferred_port`, and the
probe trace is `[preferred_port]`: a single `is_port_available` call and
no probe of any other port. -/
theorem find_available_port_preferred_fast_path (avail : Int → Bool)
    (shuffle : List Int → List Int) (pd : PortDiscovery) (p : Int)
    (hp : p ≠ 0) (hav : avail p = true) :
    find_available_port avail shuffle pd (some p) = some p ∧
    find_available_port_probes avail shuffle pd (some p) = [p] := by
  constructor
  · simp [find_available_port, hp, hav]
  · simp [find_available_port_probes, hp, hav]

/-- Witness for C2 at preferred port 8080 over the default range. -/
theorem find_available_port_preferred_fast_path_witness :
    find_available_port (fun q => q == 8080) id (PortDiscovery.init 8000 9000)
      (some 8080) = some 8080 ∧
    find_available_port_probes (fun q => q == 8080) id
      (PortDiscovery.init 8000 9000) (some 8080) = [8080] :=
  find_available_port_preferred_fast_path (fun q => q == 8080) id
    (PortDiscovery.init 8000 9000) 8080 (by decide) (by decide)

/-- C3: under an oracle reporting every port unavailable,
`find_available_port` returns `none` (a plain value, not an exception);
its probe trace is the optional truthy preferred port followed by the
whole shuffled range; its length is exactly `end - start + 1` plus one for
a truthy preferred port; and the range part of the scan probes each port
of `[start, end]` exactly once (no retries, nothing outside the range). -/
theorem find_available_port_exhaustion (avail : Int → Bool)
    (shuffle : List Int → List Int) (pd : PortDiscovery)
    (preferred_port : Option Int)
    (hall : ∀ q, avail q = false)
    (hperm : (shuffle pd.portRange).Perm pd.portRange)
    (hle : pd.start_port ≤ pd.end_port) :
    find_available_port avail shuffle pd preferred_port = none ∧
    find_available_port_probes avail shuffle pd preferred_port =
      (match preferred_port with
        | some p => if p ≠ 0 then [p] else []
        | none => []) ++ shuffle pd.portRange ∧
    ((find_available_port_probes avail shuffle pd preferred_port).length : Int)
      = (pd.end_port - pd.start_port + 1)
        + (if pyTruthy preferred_port then 1 else 0) ∧
    ∀ q, (shuffle pd.portRange).count q
      = if pd.start_port ≤ q ∧ q ≤ pd.end_port then 1 else 0 := by
  have hscan : scanPorts avail (shuffle pd.portRange) = none :=
    scanPorts_all_false _ hall
  have hprobes : scanProbes avail (shuffle pd.portRange) = shuffle pd.portRange :=
    scanProbes_all_false _ hall
  have hlen : ((shuffle pd.portRange).length : Int)
      = pd.end_port - pd.start_port + 1 := by
    rw [hperm.length_eq]
    exact length_portRange pd hle
  refine ⟨?_, ?_, ?_, ?_⟩
  · cases preferred_port with
    | none => simpa [find_available_port] using hscan
    | some p => simp [find_available_port, hall p, hscan]
  · cases preferred_port with
    | none => simpa [find_available_port_probes] using hprobes
    | some p =>
        by_cases hp : p = 0
        · simp [find_available_port_probes, hp, hprobes]
        · simp [find_available_port_probes, hp, hall p, hprobes]
  · cases preferred_port with
    | none => simpa [find_available_port_probes, pyTruthy, hprobes] using hlen
    | some p =>
        by_cases hp : p = 0
        · subst hp
          simpa [find_available_port_probes, pyTruthy, hprobes] using hlen
        · simp only [find_available_port_probes, pyTruthy, hp, hall p,
            if_neg, ite_false, hprobes]
          simp [hp, List.length_cons]
          omega
  · intro q
    rw [hperm.count_eq]
    by_cases hq : pd.start_port ≤ q ∧ q ≤ pd.end_port
    · rw [if_pos hq]
      exact List.count_eq_one_of_mem (nodup_portRange pd) (mem_portRange.mpr hq)
    · rw [if_neg hq]
      exact List.count_eq_zero.mpr (fun hmem => hq (mem_portRange.mp hmem))

/-- Witness for C3: range `[8000, 8002]`, everything occupied, preferred
port 8080 — the call returns `none` after exactly 4 probes. -/
theorem find_available_port_exhaustion_witness :
    find_available_port (fun _ => false) id ⟨8000, 8002⟩ (some 8080) = none ∧
    ((find_available_port_probes (fun _ => false) id ⟨8000, 8002⟩
        (some 8080)).length : Int) = 4 := by
  have h := find_available_port_exhaustion (fun _ => false) id ⟨8000, 8002⟩
    (some 8080) (fun _ => rfl) (List.Perm.refl _) (by decide)
  refine ⟨h.1, ?_⟩
  rw [h.2.2.1]
  norm_num [pyTruthy]

/-- C4 (counterexample): constructing with `start_port = 9000 >
end_port = 8000` does not fail: `__init__` performs no validation — no
`InvalidRange` (or any exception) exists anywhere in the constructor — and
the inverted bounds are stored unchanged. -/
theorem init_no_validation :
    PortDiscovery.init 9000 8000
      = { start_port := 9000, end_port := 8000 } := rfl

/-- C4 (amended): construction always succeeds, for every pair of bounds
including `start_port > end_port`; both bounds are stored unchanged (never
silently corrected), and an inverted range merely makes the scan list
empty. -/
theorem init_stores_range (s e : Int) :
    (PortDiscovery.init s e).start_port = s ∧
    (PortDiscovery.init s e).end_port = e ∧
    (e < s → (PortDiscovery.init s e).portRange = []) := by
  refine ⟨rfl, rfl, fun h => ?_⟩
  simp only [PortDiscovery.init, PortDiscovery.portRange, List.map_eq_nil,
    List.range_eq_nil]
  omega

/-- Witness for C4 (amended) at the inverted pair (9000, 8000). -/
theorem init_stores_range_witness :
    (PortDiscovery.init 9000 8000).start_port = 9000 ∧
    (PortDiscovery.init 9000 8000).end_port = 8000 ∧
    (PortDiscovery.init 9000 8000).portRange = [] :=
  ⟨(init_stores_range 9000 8000).1, (init_stores_range 9000 8000).2.1,
    (init_stores_range 9000 8000).2.2 (by decide)⟩

/-- C5 (counterexample): the `except (socket.error, OSError)` clause only
catches the `OSError` class.  Under the bind behaviour CPython actually
has — `sock.bind` raises `OverflowError`, which is not an `OSError`, when
the port value lies outside 0..65535 — `is_port_available` at port 70000
propagates the exception to the caller instead of returning `false`. -/
theorem is_port_available_propagates_non_oserror :
    is_port_available
      (fun p _ => if 0 ≤ p ∧ p ≤ 65535 then .ok
        else .otherExc "OverflowError: port must be 0-65535")
      (PortDiscovery.init 8000 9000) 70000 "127.0.0.1"
      = .error "OverflowError: port must be 0-65535" := by
  simp [is_port_available]

/-- C5 (amended): whenever the bind outcome at the probed port lies in the
`OSError` class (success, address in use, permission denied, any OS
reason raised as an `OSError`), `is_port_available` is a total boolean:
it returns `.ok b` — never an error — with `b` true exactly when the bind
succeeded. -/
theorem is_port_available_total_on_oserror (bind : Int → String → BindOutcome)
    (pd : PortDiscovery) (port : Int) (host : String)
    (h : ∀ m, bind port host ≠ .otherExc m) :
    ∃ b : Bool, is_port_available bind pd port host = .ok b ∧
      (b = true ↔ bind port host = .ok) := by
  unfold is_port_available
  cases hb : bind port host with
  | ok => exact ⟨true, rfl, by simp⟩
  | osError m => exact ⟨false, rfl, by simp [hb]⟩
  | otherExc m => exact absurd hb (h m)

/-- Witness for C5 (amended): an address-in-use `OSError` yields
`.ok false`. -/
theorem is_port_available_total_on_oserror_witness :
    ∃ b : Bool, is_port_available (fun _ _ => .osError "Address already in use")
      (PortDiscovery.init 8000 9000) 8080 "127.0.0.1" = .ok b ∧
      (b = true ↔ (fun _ _ => BindOutcome.osError "Address already in use")
        (8080 : Int) "127.0.0.1" = .ok) :=
  is_port_available_total_on_oserror (fun _ _ => .osError "Address already in use")
    (PortDiscovery.init 8000 9000) 8080 "127.0.0.1"
    (fun m hm => BindOutcome.noConfusion hm)

/-- C1 (counterexample): over the valid range `[10, 12]` with every port
free — in particular a free port inside the range — the truthy available
preferred port 5 lying outside the range is returned as-is: the fast path
performs no range check, so the returned port violates
`start_port ≤ p ≤ end_port`. -/
theorem find_available_port_out_of_range_preferred :
    (10 : Int) ≤ 12 ∧
    ((10 : Int) ≤ 10 ∧ (10 : Int) ≤ 12 ∧ (fun _ : Int => true) 10 = true) ∧
    find_available_port (fun _ => true) id ⟨10, 12⟩ (some 5) = some 5 ∧
    ¬((10 : Int) ≤ 5 ∧ (5 : Int) ≤ 12) := by
  refine ⟨by norm_num, ⟨by norm_num, by norm_num, rfl⟩, ?_, by norm_num⟩
  simp [find_available_port]

/-- C1 (amended): whenever at least one port of `[start_port, end_port]`
is free, `find_available_port` returns `some p` with `p` available at the
moment of return, and `p` lies within `[start_port, end_port]` unless it
is the supplied preferred port, which the fast path returns without any
range check. -/
theorem find_available_port_success (avail : Int → Bool)
    (shuffle : List Int → List Int) (pd : PortDiscovery)
    (preferred_port : Option Int)
    (hfree : ∃ q, pd.start_port ≤ q ∧ q ≤ pd.end_port ∧ avail q = true)
    (hperm : (shuffle pd.portRange).Perm pd.portRange) :
    ∃ p, find_available_port avail shuffle pd preferred_port = some p ∧
      avail p = true ∧
      ((pd.start_port ≤ p ∧ p ≤ pd.end_port) ∨ preferred_port = some p) := by
  obtain ⟨q, hq1, hq2, hqa⟩ := hfree
  have hqmem : q ∈ shuffle pd.portRange :=
    hperm.mem_iff.mpr (mem_portRange.mpr ⟨hq1, hq2⟩)
  have hscan : ∃ p, scanPorts avail (shuffle pd.portRange) = some p :=
    scanPorts_isSome ⟨q, hqmem, hqa⟩
  have hrange : ∀ {p : Int}, scanPorts avail (shuffle pd.portRange) = some p →
      avail p = true ∧ (pd.start_port ≤ p ∧ p ≤ pd.end_port) := by
    intro p hp
    rcases scanPorts_eq_some hp with ⟨h1, h2⟩
    exact ⟨h1, mem_portRange.mp (hperm.mem_iff.mp h2)⟩
  cases preferred_port with
  | none =>
      obtain ⟨p, hp⟩ := hscan
      exact ⟨p, by simpa [find_available_port] using hp, (hrange hp).1,
        Or.inl (hrange hp).2⟩
  | some p0 =>
      by_cases hfast : p0 ≠ 0 ∧ avail p0 = true
      · exact ⟨p0, by simp [find_available_port, hfast], hfast.2, Or.inr rfl⟩
      · obtain ⟨p, hp⟩ := hscan
        refine ⟨p, ?_, (hrange hp).1, Or.inl (hrange hp).2⟩
        simpa [find_available_port, hfast] using hp

/-- Witness for C1 (amended): range `[10, 12]`, only port 11 free, no
preferred port — the scan finds and returns port 11. -/
theorem find_available_port_success_witness :
    ∃ p, find_available_port (fun q => q == 11) id ⟨10, 12⟩ none = some p ∧
      (fun q : Int => q == 11) p = true ∧
      (((10 : Int) ≤ p ∧ p ≤ 12) ∨ (none : Option Int) = some p) :=
  find_available_port_success (fun q => q == 11) id ⟨10, 12⟩ none
    ⟨11, by norm_num, by norm_num, by decide⟩ (List.Perm.refl _)

/-- C6: for every connection table, `find_ports_in_use` is sorted
ascending, duplicate-free, and contains a port exactly when some table
entry has that local port within `[start_port, end_port]`; on the table
with local ports {8001, 8005, 8009, 9000} and range `[8000, 8010]` it
returns exactly `[8001, 8005, 8009]`. -/
theorem find_ports_in_use_sorted_dedup_filter (pd : PortDiscovery)
    (conns : List Conn) :
    (find_ports_in_use pd (.ok conns)).Sorted (· ≤ ·) ∧
    (find_ports_in_use pd (.ok conns)).Nodup ∧
    (∀ q, q ∈ find_ports_in_use pd (.ok conns) ↔
      (pd.start_port ≤ q ∧ q ≤ pd.end_port ∧ ∃ c ∈ conns, c.laddr.port = q)) ∧
    find_ports_in_use ⟨8000, 8010⟩
      (.ok [⟨⟨8001⟩, none⟩, ⟨⟨8005⟩, none⟩, ⟨⟨8009⟩, none⟩, ⟨⟨9000⟩, none⟩])
      = [8001, 8005, 8009] := by
  refine ⟨?_, ?_, ?_, ?_⟩
  · exact List.sorted_insertionSort _ _
  · exact (List.perm_insertionSort _ _).nodup_iff.mpr (List.nodup_dedup _)
  · intro q
    simp only [find_ports_in_use]
    rw [(List.perm_insertionSort _ _).mem_iff, List.mem_dedup]
    simp only [List.mem_map, List.mem_filter, decide_eq_true_eq]
    constructor
    · rintro ⟨c, ⟨hc, h1, h2⟩, rfl⟩
      exact ⟨h1, h2, c, hc, rfl⟩
    · rintro ⟨h1, h2, c, hc, rfl⟩
      exact ⟨c, ⟨hc, h1, h2⟩, rfl⟩
  · rfl

/-- C7 (counterexample): when the owning-process lookup fails, the
returned partial record does not have its name and status `None`/empty —
the source fills them with the non-empty sentinel string `"Unknown"`. -/
theorem get_process_using_port_unknown_sentinel :
    get_process_using_port (PortDiscovery.init 8000 9000)
      (.ok [⟨⟨8080⟩, some 1234⟩]) (fun _ => .noSuchProcess) 8080
      = some ⟨some 1234, "Unknown", [], "Unknown"⟩ ∧
    ("Unknown" : String) ≠ "" := by
  exact ⟨rfl, by decide⟩

theorem lookupLoop_append_no_match (proc : Option Int → ProcLookup)
    (port : Int) (pre rest : List Conn)
    (hpre : ∀ d ∈ pre, d.laddr.port ≠ port) :
    lookupLoop proc port (pre ++ rest) = lookupLoop proc port rest := by
  induction pre with
  | nil => rfl
  | cons d ds ih =>
      rw [List.cons_append, lookupLoop,
        if_neg (hpre d (List.mem_cons_self d ds))]
      exact ih (fun e he => hpre e (List.mem_cons_of_mem d he))

theorem lookupLoop_cons_match (proc : Option Int → ProcLookup) (port : Int)
    (c : Conn) (rest : List Conn) (hc : c.laddr.port = port) :
    lookupLoop proc port (c :: rest) = lookupLoop proc port [c] := by
  rw [lookupLoop, lookupLoop, if_pos hc, if_pos hc]

/-- C7 (amended): when the first connection-table entry matching the
queried port has an owning-process lookup that fails with `NoSuchProcess`
or `AccessDenied`, `get_process_using_port` does not fail: it returns the
partial record whose pid comes from the connection entry, whose command
line is empty, and whose name and status carry the sentinel string
`"Unknown"`. -/
theorem get_process_using_port_partial_record (pd : PortDiscovery)
    (pre : List Conn) (c : Conn) (rest : List Conn)
    (proc : Option Int → ProcLookup) (port : Int)
    (hpre : ∀ d ∈ pre, d.laddr.port ≠ port) (hc : c.laddr.port = port)
    (hfail : proc c.pid = .noSuchProcess ∨ proc c.pid = .accessDenied) :
    get_process_using_port pd (.ok (pre ++ c :: rest)) proc port
      = some ⟨c.pid, "Unknown", [], "Unknown"⟩ := by
  show lookupLoop proc port (pre ++ c :: rest) = _
  rw [lookupLoop_append_no_match proc port pre (c :: rest) hpre,
    lookupLoop, if_pos hc]
  rcases hfail with h | h <;> rw [h]

/-- Witness for C7 (amended): a non-matching entry precedes the matching
one whose lookup is denied; the sentinel partial record comes back. -/
theorem get_process_using_port_partial_record_witness :
    get_process_using_port (PortDiscovery.init 8000 9000)
      (.ok ([⟨⟨9090⟩, some 1⟩] ++ ⟨⟨8080⟩, some 1234⟩ :: []))
      (fun _ => .accessDenied) 8080
      = some ⟨some 1234, "Unknown", [], "Unknown"⟩ :=
  get_process_using_port_partial_record (PortDiscovery.init 8000 9000)
    [⟨⟨9090⟩, some 1⟩] ⟨⟨8080⟩, some 1234⟩ [] (fun _ => .accessDenied) 8080
    (by decide) rfl (Or.inr rfl)

/-- C8: the diagnostic operations never raise — both are total functions
in the embedding, mirroring the `except Exception` handlers — and degrade
to absence: `get_process_using_port` returns `none` when no entry's local
port matches and when enumeration itself fails, and `find_ports_in_use`
returns `[]` when enumeration fails. -/
theorem diagnostics_never_raise (pd : PortDiscovery) (conns : List Conn)
    (proc : Option Int → ProcLookup) (port : Int) (e : String) :
    ((∀ c ∈ conns, c.laddr.port ≠ port) →
      get_process_using_port pd (.ok conns) proc port = none) ∧
    get_process_using_port pd (.error e) proc port = none ∧
    find_ports_in_use pd (.error e) = [] := by
  refine ⟨?_, rfl, rfl⟩
  intro h
  show lookupLoop proc port conns = none
  have hs := lookupLoop_append_no_match proc port conns [] h
  simpa using hs

/-- Witness for C8: a table whose only entry sits on another port, and an
enumeration failure. -/
theorem diagnostics_never_raise_witness :
    get_process_using_port (PortDiscovery.init 8000 9000)
      (.ok [⟨⟨9090⟩, some 7⟩]) (fun _ => .noSuchProcess) 8080 = none ∧
    get_process_using_port (PortDiscovery.init 8000 9000)
      (.error "AccessDenied") (fun _ => .noSuchProcess) 8080 = none ∧
    find_ports_in_use (PortDiscovery.init 8000 9000)
      (.error "AccessDenied") = [] := by
  have h := diagnostics_never_raise (PortDiscovery.init 8000 9000)
    [⟨⟨9090⟩, some 7⟩] (fun _ => .noSuchProcess) 8080 "AccessDenied"
  exact ⟨h.1 (by decide), h.2.1, h.2.2⟩

/-- C9: no method body of the class assigns to `self`, so in
state-threading form every operation hands back the allocator it was
given — `start_port` and `end_port` are unchanged — and nothing is cached
across calls: repeating `find_available_port` on the state returned by a
first call yields exactly the first call's result. -/
theorem operations_stateless (bind : Int → String → BindOutcome)
    (avail : Int → Bool) (shuffle : List Int → List Int)
    (pd : PortDiscovery) (port : Int) (host : String)
    (preferred_port : Option Int)
    (net_connections : Except String (List Conn))
    (proc : Option Int → ProcLookup) :
    (is_port_available_st bind pd port host).2 = pd ∧
    (find_available_port_st avail shuffle pd preferred_port).2 = pd ∧
    (get_process_using_port_st pd net_connections proc port).2 = pd ∧
    (find_ports_in_use_st pd net_connections).2 = pd ∧
    (find_available_port_st avail shuffle
        (find_available_port_st avail shuffle pd preferred_port).2
        preferred_port).1
      = (find_available_port_st avail shuffle pd preferred_port).1 :=
  ⟨rfl, rfl, rfl, rfl, rfl⟩

/-- C10: `get_process_using_port` resolves only the first matching
connection-table entry: with the entries before the match fixed, the
result is the same for any two continuations of the table, and equals the
resolution of the matching entry alone. -/
theorem get_process_using_port_first_match_only (pd : PortDiscovery)
    (pre : List Conn) (c : Conn) (rest₁ rest₂ : List Conn)
    (proc : Option Int → ProcLookup) (port : Int)
    (hpre : ∀ d ∈ pre, d.laddr.port ≠ port) (hc : c.laddr.port = port) :
    get_process_using_port pd (.ok (pre ++ c :: rest₁)) proc port
      = get_process_using_port pd (.ok (pre ++ c :: rest₂)) proc port ∧
    get_process_using_port pd (.ok (pre ++ c :: rest₁)) proc port
      = get_process_using_port pd (.ok [c]) proc port := by
  have key : ∀ rest : List Conn,
      lookupLoop proc port (pre ++ c :: rest) = lookupLoop proc port [c] := by
    intro rest
    rw [lookupLoop_append_no_match proc port pre (c :: rest) hpre,
      lookupLoop_cons_match proc port c rest hc]
  exact ⟨(key rest₁).trans (key rest₂).symm, key rest₁⟩

/-- Witness for C10: a second matching entry with a different pid after
the first one does not change the result. -/
theorem get_process_using_port_first_match_only_witness :
    (get_process_using_port (PortDiscovery.init 8000 9000)
        (.ok ([⟨⟨7000⟩, none⟩] ++ ⟨⟨8080⟩, some 1⟩ :: [⟨⟨8080⟩, some 99⟩]))
        (fun _ => .noSuchProcess) 8080
      = get_process_using_port (PortDiscovery.init 8000 9000)
        (.ok ([⟨⟨7000⟩, none⟩] ++ ⟨⟨8080⟩, some 1⟩ :: []))
        (fun _ => .noSuchProcess) 8080) ∧
    get_process_using_port (PortDiscovery.init 8000 9000)
        (.ok ([⟨⟨7000⟩, none⟩] ++ ⟨⟨8080⟩, some 1⟩ :: [⟨⟨8080⟩, some 99⟩]))
        (fun _ => .noSuchProcess) 8080
      = get_process_using_port (PortDiscovery.init 8000 9000)
        (.ok [⟨⟨8080⟩, some 1⟩]) (fun _ => .noSuchProcess) 8080 :=
  get_process_using_port_first_match_only (PortDiscovery.init 8000 9000)
    [⟨⟨7000⟩, none⟩] ⟨⟨8080⟩, some 1⟩ [⟨⟨8080⟩, some 99⟩] []
    (fun _ => .noSuchProcess) 8080 (by decide) rfl
